import Mathlib

/-!
Shallow embedding of the core of the `Prediccion-Climatica` repository:
the weather retrieval / normalization layer (`backend/weather_service.py`)
and the weekly pattern-analysis engine (`backend/weather_predictions.py`).

Modelling conventions:
* Python floats are modelled as exact rationals (`ℚ`); `round(x, 1)` is
  modelled with the Mathlib `round` at one decimal (tie-breaking at exact
  halves differs from the float rounding of Python, which is half-even,
  but no property below depends on a tie).
* JSON dictionary lookups that may be absent are `Option` fields; a direct
  subscript `d["k"]` on a missing key is a `KeyError`, modelled as the
  corresponding error path.
* Provider humidity is an integer in the provider schema, so `int(...)`
  on it is the identity and the field is modelled as `Int`.
* Timestamps: `datetime.fromtimestamp` is modelled as linear time
  (`dt / 86400` is the calendar-date index, `dt % 86400 / 3600` the hour,
  and the weekday of date index `d` is `(d + 3) % 7` since the epoch day
  was a Thursday, Python weekday 3). Time-zone and leap-second effects
  are outside the model.
* Exceptions are `Except String`; a function the source cannot fail is
  total.
-/

namespace Clima

/-- Python `round(x, 1)`, on exact rationals, written with the floor
formula of rounding (by `round_eq` this is the Mathlib `round` of
`x * 10`, divided by 10). -/
def round1 (x : ℚ) : ℚ := (⌊x * 10 + 1 / 2⌋ : ℤ) / 10

/-- Embeds `WeatherService._get_day_name` / `WeatherPredictions.dias_semana`:
weekday index (Monday = 0) to Spanish day name, defaulting to
"Desconocido" out of range. -/
def get_day_name (weekday : ℕ) : String :=
  match weekday with
  | 0 => "Lunes"
  | 1 => "Martes"
  | 2 => "Miércoles"
  | 3 => "Jueves"
  | 4 => "Viernes"
  | 5 => "Sábado"
  | 6 => "Domingo"
  | _ => "Desconocido"

/-! ## `WeatherService._make_request` -/

/-- Outcome of one HTTP GET attempt, as seen by `_make_request`:
either a `requests` timeout, a transport-level `RequestException`, or a
completed response with an HTTP status code and a (abstracted) JSON body. -/
inductive Outcome where
  | timeout
  | transportError (msg : String)
  | response (status : ℕ) (body : ℕ)
  deriving Repr, DecidableEq

/-- In requests, `response.raise_for_status()` raises `HTTPError` (a subclass of
`RequestException`) exactly for status codes 400–599. -/
def raisesForStatus (status : ℕ) : Bool := 400 ≤ status && status < 600

/-- The retry loop of `_make_request`. `env i` is the outcome of the
`i`-th GET performed; `attempts` counts GETs performed so far and `fuel`
is `max_retries - attempts`, so the `while attempts < max_retries` loop
is structural recursion on `fuel`. Returns the result together with the
number of GET requests actually performed. Every caught failure
(timeout, transport error, and `HTTPError` from `raise_for_status`,
which `except RequestException` also catches) increments `attempts` and
loops. -/
def make_request_loop (env : ℕ → Outcome) :
    ℕ → ℕ → String → Except String ℕ × ℕ
  | 0, attempts, lastError =>
    (.error ("Error después de 3 intentos: " ++ lastError), attempts)
  | fuel + 1, attempts, _lastError =>
    match env attempts with
    | .timeout =>
        make_request_loop env fuel (attempts + 1)
          "Timeout al conectar con el servicio"
    | .transportError msg =>
        make_request_loop env fuel (attempts + 1) msg
    | .response status body =>
        if raisesForStatus status then
          make_request_loop env fuel (attempts + 1)
            ("HTTP error " ++ toString status)
        else
          (.ok body, attempts + 1)

/-- Embeds `WeatherService._make_request` with `max_retries = 3`. -/
def make_request (env : ℕ → Outcome) : Except String ℕ × ℕ :=
  make_request_loop env 3 0 ""

/-! ## Provider payload schema (current weather) -/

/-- The `main` object of a provider payload; `temp` and `humidity` may be
absent. -/
structure MainData where
  temp : Option ℚ
  humidity : Option ℤ
  deriving Repr, DecidableEq

/-- The `wind` object; `speed` may be absent (`wind.get("speed", 0)`). -/
structure WindData where
  speed : Option ℚ
  deriving Repr, DecidableEq

/-- One element of the `weather` array (modelled with both fields
present, as in the provider schema). -/
structure WeatherCond where
  description : String
  wid : ℤ
  deriving Repr, DecidableEq

/-- The `rain` object of a current-weather payload; the `"1h"` key may be
absent. -/
structure RainData1h where
  oneH : Option ℚ
  deriving Repr, DecidableEq

/-- A current-weather provider payload. The `weather` array being absent
and being empty are indistinguishable to the code (`if data.get("weather")`
tests truthiness), so both are the empty list. -/
structure CurrentPayload where
  main : Option MainData
  wind : Option WindData
  rain : Option RainData1h
  weather : List WeatherCond
  deriving Repr, DecidableEq

/-- Normalized current weather returned by `get_current_weather`
(the wall-clock `timestamp` field is outside the model). -/
structure CurrentWeather where
  temperatura : ℚ
  humedad : ℤ
  viento : ℚ
  lluvia : ℚ
  condicion : String
  condicion_id : ℤ
  deriving Repr, DecidableEq

/-- Embeds `WeatherService.get_current_weather`, after `_make_request` returned
`data`. First validates that `"temp"` and `"humidity"` are in
`data.get("main", {})`, raising `ValueError` otherwise; then builds the
record, where `data["wind"]` is a direct subscript whose `KeyError` is
converted to the same `ValueError` path. -/
def get_current_weather (data : CurrentPayload) : Except String CurrentWeather :=
  match data.main with
  | none => .error "Datos incompletos en la respuesta de la API"
  | some m =>
    match m.temp, m.humidity with
    | some t, some h =>
      match data.wind with
      | none => .error "Error al procesar datos del clima: wind"
      | some w =>
        .ok { temperatura := round1 t
              humedad := h
              viento := round1 (w.speed.getD 0 * (36 / 10))
              lluvia := (match data.rain with
                         | none => 0
                         | some r => r.oneH.getD 0)
              condicion := (match data.weather with
                            | [] => "desconocido"
                            | c :: _ => c.description)
              condicion_id := (match data.weather with
                               | [] => 800
                               | c :: _ => c.wid) }
    | _, _ => .error "Datos incompletos en la respuesta de la API"

/-! ## Provider payload schema (forecast) and `get_forecast` -/

/-- The `rain` object of a forecast sample; the `"3h"` key may be
absent. -/
structure RainData3h where
  threeH : Option ℚ
  deriving Repr, DecidableEq

/-- One 3-hour forecast sample from the provider `list`. `dt` is the
epoch timestamp (always parseable in the model; a sample whose `dt` is
missing is skipped by the source before touching any state, so it is
observationally a sample that never matches the midday filter). -/
structure Sample where
  dt : ℕ
  main : Option MainData
  wind : Option WindData
  rain : Option RainData3h
  weather : List WeatherCond
  deriving Repr, DecidableEq

/-- Calendar-date index of a sample (`dt.strftime("%Y-%m-%d")` is
injective in the linear-time model, so the date string is identified with
the day number). -/
def Sample.date (s : Sample) : ℕ := s.dt / 86400

/-- Local hour of a sample. -/
def Sample.hour (s : Sample) : ℕ := s.dt % 86400 / 3600

/-- One normalized daily forecast entry. `fecha` is the calendar-date
index. -/
structure DailyForecast where
  fecha : ℕ
  dia : String
  temperatura : ℚ
  humedad : ℤ
  viento : ℚ
  lluvia : ℚ
  condicion : String
  condicion_id : ℤ
  deriving Repr, DecidableEq

/-- The body of the per-sample `try` block in `get_forecast`: builds the
forecast dict for a sample, or fails (`KeyError` on `item["main"]`,
missing `temp`/`humidity`, or `KeyError` on `item["wind"]`), in which
case the sample is skipped with a warning. -/
def normalizeItem (s : Sample) : Option DailyForecast :=
  match s.main with
  | none => none
  | some m =>
    match m.temp, m.humidity with
    | some t, some h =>
      match s.wind with
      | none => none
      | some w =>
        some { fecha := s.date
               dia := get_day_name ((s.date + 3) % 7)
               temperatura := round1 t
               humedad := h
               viento := round1 (w.speed.getD 0 * (36 / 10))
               lluvia := (match s.rain with
                          | none => 0
                          | some r => r.threeH.getD 0) / 3
               condicion := (match s.weather with
                             | [] => "desconocido"
                             | c :: _ => c.description)
               condicion_id := (match s.weather with
                                | [] => 800
                                | c :: _ => c.wid) }
    | _, _ => none

/-- A sample passes the midday filter when its local hour is 11, 12 or
13 (`dt.hour in [11, 12, 13]`). -/
def midday (s : Sample) : Bool :=
  s.hour == 11 || s.hour == 12 || s.hour == 13

/-- The selection loop of `get_forecast`. `seen` is `seen_dates` and `n`
is `len(daily_forecasts)` so far; the function returns the entries
appended from this point on. Faithful detail: the date is added to
`seen_dates` *before* the `try` block that may fail, so a malformed first
midday sample consumes its date; and the loop `break`s as soon as the
fifth entry has been appended. -/
def forecastLoop : List Sample → List ℕ → ℕ → List DailyForecast
  | [], _, _ => []
  | s :: rest, seen, n =>
    if midday s && !seen.contains s.date then
      match normalizeItem s with
      | none => forecastLoop rest (s.date :: seen) n
      | some f =>
        if 5 ≤ n + 1 then [f]
        else f :: forecastLoop rest (s.date :: seen) (n + 1)
    else
      forecastLoop rest seen n

/-- Embeds `WeatherService.get_forecast`, after `_make_request` returned the
sample list (`data["list"]`; a missing or empty `list` raises before the
loop). -/
def get_forecast (lista : List Sample) : Except String (List DailyForecast) :=
  if lista.isEmpty then
    .error "No se encontraron datos de pronóstico"
  else if (forecastLoop lista [] 0).isEmpty then
    .error "No se pudieron procesar los datos del pronóstico"
  else
    .ok (forecastLoop lista [] 0)

/-! ## `WeatherPredictions` -/

/-- Core of `WeatherPredictions._calcular_tendencia`: OLS slope of the cleaned
series against the 0-based index. `sklearn.LinearRegression` fits
ordinary least squares, whose slope over points `(i, yᵢ)` is
`(n·Σ i·yᵢ − Σ i · Σ yᵢ) / (n·Σ i² − (Σ i)²)`; the denominator is
nonzero whenever `n ≥ 2`. -/
def slopeOLS (ys : List ℚ) : ℚ :=
  let n : ℚ := ys.length
  let xs : List ℚ := (List.range ys.length).map (fun i => (i : ℚ))
  let sx := xs.sum
  let sy := ys.sum
  let sxy := ((xs.zip ys).map (fun p => p.1 * p.2)).sum
  let sxx := (xs.map (fun x => x * x)).sum
  (n * sxy - sx * sy) / (n * sxx - sx * sx)

/-- Embeds `WeatherPredictions._calcular_tendencia`. The input list may hold
invalid entries (`None` or non-numeric, modelled as `none`), which the
cleaning comprehension drops. Fewer than 2 raw entries, or fewer than 2
valid entries after cleaning, yields slope `0`; the function is total
(every exception path in the source returns `0.0`). -/
def calcular_tendencia (datos : List (Option ℚ)) : ℚ :=
  if datos.length < 2 then 0
  else if (datos.filterMap id).length < 2 then 0
  else slopeOLS (datos.filterMap id)

/-- Embeds `WeatherPredictions._categorizar_temperatura`. -/
def categorizar_temperatura (temp : ℚ) : String :=
  if temp < 15 then "fría"
  else if temp < 25 then "moderada"
  else "caliente"

/-- Embeds `WeatherPredictions._categorizar_humedad`. -/
def categorizar_humedad (hum : ℚ) : String :=
  if hum < 40 then "baja"
  else if hum < 70 then "moderada"
  else "alta"

/-- Embeds `WeatherPredictions._categorizar_viento`. -/
def categorizar_viento (viento : ℚ) : String :=
  if viento < 10 then "suave"
  else if viento < 20 then "moderado"
  else "fuerte"

/-- Result record of `WeatherPredictions._evaluar_riesgo_cultivo`. -/
structure Riesgo where
  nivel : String
  factores : List String
  valor : ℕ
  deriving Repr, DecidableEq

/-- Embeds `WeatherPredictions._evaluar_riesgo_cultivo`: additive risk score
with contributing-factor labels, then level `bajo` (≤ 1), `medio` (≤ 3),
`alto` (otherwise). -/
def evaluar_riesgo_cultivo (temp hum viento : ℚ) : Riesgo :=
  let r1 : ℕ × List String :=
    if temp > 30 then (2, ["temperatura alta"])
    else if temp < 10 then (2, ["temperatura baja"])
    else (0, [])
  let r2 : ℕ × List String :=
    if hum > 80 then (r1.1 + 2, r1.2 ++ ["humedad alta"])
    else if hum < 30 then (r1.1 + 1, r1.2 ++ ["humedad baja"])
    else r1
  let r3 : ℕ × List String :=
    if viento > 25 then (r2.1 + 2, r2.2 ++ ["viento fuerte"])
    else r2
  { nivel := if r3.1 ≤ 1 then "bajo" else if r3.1 ≤ 3 then "medio" else "alto"
    factores := r3.2
    valor := r3.1 }

/-- Embeds `WeatherPredictions._interpretar_tendencia`. -/
def interpretar_tendencia (tendencia : ℚ) : String :=
  if |tendencia| < 1 / 10 then "estable"
  else if tendencia > 0 then "aumentando"
  else "disminuyendo"

/-- A recommendation record appended by `_generar_recomendaciones`. -/
structure Recomendacion where
  tipo : String
  mensaje : String
  deriving Repr, DecidableEq

/-- An alert record appended by `_generar_recomendaciones`. -/
structure Alerta where
  tipo : String
  nivel : String
  mensaje : String
  deriving Repr, DecidableEq

/-- The fungal-risk alert literal from `_generar_recomendaciones`. -/
def alertaHongos : Alerta :=
  { tipo := "hongos"
    nivel := "precaución"
    mensaje := "Riesgo de desarrollo de hongos por alta humedad" }

/-- The strong-wind alert literal from `_generar_recomendaciones`. -/
def alertaViento : Alerta :=
  { tipo := "viento"
    nivel := "advertencia"
    mensaje := "Vientos fuertes pueden afectar los cultivos" }

/-- The irrigation recommendation literal from
`_generar_recomendaciones`. -/
def recomendacionRiego : Recomendacion :=
  { tipo := "riego"
    mensaje := "Aumentar frecuencia de riego por tendencia al alza en temperaturas" }

/-- Embeds `WeatherPredictions._generar_recomendaciones`: appends to the
(initially empty) `recomendaciones` and `alertas` lists of the analysis.
Returns what each list holds afterwards. The temperature trend is
recomputed here on the processed temperature series; the alert scans use
`any` over the full processed series, with thresholds 80 (humidity) and
30 (wind). -/
def generar_recomendaciones (temperaturas humedades vientos : List ℚ) :
    List Recomendacion × List Alerta :=
  ((if calcular_tendencia (temperaturas.map some) > 1 / 2
    then [recomendacionRiego] else []),
   (if humedades.any (fun h => h > 80) then [alertaHongos] else []) ++
   (if vientos.any (fun v => v > 30) then [alertaViento] else []))

/-- The summary record built by `_generar_resumen`. -/
structure Resumen where
  temperatura_promedio : ℚ
  humedad_promedio : ℚ
  viento_promedio : ℚ
  tendencia_temperatura : String
  tendencia_humedad : String
  deriving Repr, DecidableEq

/-- Embeds `WeatherPredictions._generar_resumen`: rounded arithmetic means of
the processed series (0 when a series is empty) plus trend
interpretations. -/
def generar_resumen (temperaturas humedades vientos : List ℚ)
    (tendencia_temp tendencia_hum : ℚ) : Resumen :=
  { temperatura_promedio :=
      if temperaturas.isEmpty then 0
      else round1 (temperaturas.sum / temperaturas.length)
    humedad_promedio :=
      if humedades.isEmpty then 0
      else round1 (humedades.sum / humedades.length)
    viento_promedio :=
      if vientos.isEmpty then 0
      else round1 (vientos.sum / vientos.length)
    tendencia_temperatura := interpretar_tendencia tendencia_temp
    tendencia_humedad := interpretar_tendencia tendencia_hum }

/-- One day of the forecast as read back by `analizar_patron_semanal`
from the forecast dict. A numeric field is `some x` when
`float(dia.get(k, 0))` succeeds with value `x` (a missing key defaults
to `some 0`), and `none` when the stored value is non-numeric and
`float` raises. -/
structure DiaPronostico where
  dia : String
  fecha : String
  temperatura : Option ℚ
  humedad : Option ℚ
  viento : Option ℚ
  deriving Repr, DecidableEq

/-- Value-plus-category pair inside a daily pattern. -/
structure ValorCategoria where
  valor : ℚ
  categoria : String
  deriving Repr, DecidableEq

/-- One `patron_diario` record. -/
structure PatronDiario where
  dia : String
  fecha : String
  temperatura : ValorCategoria
  humedad : ValorCategoria
  viento : ValorCategoria
  riesgo_cultivo : Riesgo
  deriving Repr, DecidableEq

/-- The per-day `try` body in `analizar_patron_semanal`: parse the three
numeric fields (any failure skips the whole day before anything is
appended — the three `float` conversions all precede the first
`append`), then build the daily pattern. -/
def procesarDia (d : DiaPronostico) : Option (PatronDiario × ℚ × ℚ × ℚ) :=
  match d.temperatura, d.humedad, d.viento with
  | some t, some h, some v =>
    some ({ dia := d.dia
            fecha := d.fecha
            temperatura := { valor := t, categoria := categorizar_temperatura t }
            humedad := { valor := h, categoria := categorizar_humedad h }
            viento := { valor := v, categoria := categorizar_viento v }
            riesgo_cultivo := evaluar_riesgo_cultivo t h v }, t, h, v)
  | _, _, _ => none

/-- The processing loop of `analizar_patron_semanal`: returns the
`patrones_diarios` list and the three parallel series `temperaturas`,
`humedades`, `vientos`, each receiving exactly one element per
successfully processed day. -/
def procesarDias : List DiaPronostico →
    List PatronDiario × List ℚ × List ℚ × List ℚ
  | [] => ([], [], [], [])
  | d :: rest =>
    match procesarDia d with
    | some (p, t, h, v) =>
      (p :: (procesarDias rest).1,
       t :: (procesarDias rest).2.1,
       h :: (procesarDias rest).2.2.1,
       v :: (procesarDias rest).2.2.2)
    | none => procesarDias rest

/-- List `patrones_diarios` accumulated by the processing loop. -/
def patronesDe (dias : List DiaPronostico) : List PatronDiario :=
  (procesarDias dias).1

/-- List `temperaturas` accumulated by the processing loop. -/
def temperaturasDe (dias : List DiaPronostico) : List ℚ :=
  (procesarDias dias).2.1

/-- List `humedades` accumulated by the processing loop. -/
def humedadesDe (dias : List DiaPronostico) : List ℚ :=
  (procesarDias dias).2.2.1

/-- List `vientos` accumulated by the processing loop. -/
def vientosDe (dias : List DiaPronostico) : List ℚ :=
  (procesarDias dias).2.2.2

/-- The full weekly analysis record. -/
structure Analisis where
  patrones_diarios : List PatronDiario
  recomendaciones : List Recomendacion
  alertas : List Alerta
  resumen : Resumen
  deriving Repr, DecidableEq

/-- Embeds `WeatherPredictions.analizar_patron_semanal`, after the forecast
fetch returned `datos_diarios`: coordinate-range validation, empty-feed
check, per-day processing with skip-on-error, all-days-skipped check,
trend fit on the temperature and humidity series, recommendations and
alerts, and the summary. -/
def analizar_patron_semanal (lat lon : ℚ)
    (datos_diarios : List DiaPronostico) : Except String Analisis :=
  if ¬(-90 ≤ lat ∧ lat ≤ 90) ∨ ¬(-180 ≤ lon ∧ lon ≤ 180) then
    .error "Coordenadas geográficas no válidas"
  else if datos_diarios.isEmpty then
    .error "No se obtuvieron datos de pronóstico"
  else if (patronesDe datos_diarios).isEmpty then
    .error "No se pudo procesar ningún día del pronóstico"
  else
    .ok { patrones_diarios := patronesDe datos_diarios
          recomendaciones :=
            (generar_recomendaciones (temperaturasDe datos_diarios)
              (humedadesDe datos_diarios) (vientosDe datos_diarios)).1
          alertas :=
            (generar_recomendaciones (temperaturasDe datos_diarios)
              (humedadesDe datos_diarios) (vientosDe datos_diarios)).2
          resumen :=
            generar_resumen (temperaturasDe datos_diarios)
              (humedadesDe datos_diarios) (vientosDe datos_diarios)
              (calcular_tendencia ((temperaturasDe datos_diarios).map some))
              (calcular_tendencia ((humedadesDe datos_diarios).map some)) }

/-! ## Auxiliary definitions used by the statements -/

/-- Boolean error discriminator for `Except`. -/
def isErr {α : Type} : Except String α → Bool
  | .error _ => true
  | .ok _ => false

/-- Normalization of a sample restricted to the midday filter: the entry
a sample can contribute if its date is still unseen and the 5-entry cap
is not reached. -/
def middayNorm (s : Sample) : Option DailyForecast :=
  if midday s then normalizeItem s else none

/-! ## Concrete inputs for counterexamples and witnesses -/

/-- Environment whose first GET yields HTTP 500 and whose second yields
HTTP 200 with body `7`. -/
def envC2 : ℕ → Outcome :=
  fun i => if i = 0 then .response 500 0 else .response 200 7

/-- Environment in which every GET yields HTTP 404. -/
def envC2W : ℕ → Outcome := fun _ => .response 404 0

/-- Current-weather payload with `main.temp` and `main.humidity` present
but no `wind` object at all. -/
def payloadC3 : CurrentPayload :=
  { main := some { temp := some 20, humidity := some 50 }
    wind := none
    rain := none
    weather := [] }

/-- Current-weather payload with `main` complete and a `wind` object
lacking `speed`. -/
def payloadC3W : CurrentPayload :=
  { main := some { temp := some 20, humidity := some 50 }
    wind := some { speed := none }
    rain := none
    weather := [] }

/-- Two well-formed midday samples on consecutive dates (hours 11:00 and
11:00 of the next day). -/
def listaC4 : List Sample :=
  [{ dt := 39600
     main := some { temp := some 20, humidity := some 50 }
     wind := some { speed := some 5 }
     rain := none
     weather := [] },
   { dt := 126000
     main := some { temp := some 25, humidity := some 60 }
     wind := some { speed := none }
     rain := some { threeH := some 3 }
     weather := [{ description := "lluvia", wid := 500 }] }]

/-- The forecast entries `get_forecast` produces on `listaC4`. -/
def rC4 : List DailyForecast :=
  [{ fecha := 0, dia := "Jueves", temperatura := 20, humedad := 50,
     viento := 18, lluvia := 0, condicion := "desconocido",
     condicion_id := 800 },
   { fecha := 1, dia := "Viernes", temperatura := 25, humedad := 60,
     viento := 0, lluvia := 1, condicion := "lluvia", condicion_id := 500 }]

/-- One forecast day with humidity 90 (> 80) and wind 35 (> 30). -/
def diasC8 : List DiaPronostico :=
  [{ dia := "Lunes", fecha := "2024-01-01"
     temperatura := some 20, humedad := some 90, viento := some 35 }]

/-- Two forecast days, both above the humidity and wind alert
thresholds. -/
def diasC9 : List DiaPronostico :=
  [{ dia := "Martes", fecha := "2024-01-02"
     temperatura := some 18, humedad := some 85, viento := some 40 },
   { dia := "Miércoles", fecha := "2024-01-03"
     temperatura := some 19, humedad := some 85, viento := some 40 }]

/-- Three forecast days of which the middle one has a non-numeric
temperature and is skipped. -/
def diasC10 : List DiaPronostico :=
  [{ dia := "Lunes", fecha := "2024-01-01"
     temperatura := some 20, humedad := some 50, viento := some 5 },
   { dia := "Martes", fecha := "2024-01-02"
     temperatura := none, humedad := some 60, viento := some 6 },
   { dia := "Miércoles", fecha := "2024-01-03"
     temperatura := some 22, humedad := some 55, viento := some 7 }]

/-- The analysis `analizar_patron_semanal` produces on `diasC8`. -/
def aC8 : Analisis :=
  { patrones_diarios :=
      [{ dia := "Lunes", fecha := "2024-01-01"
         temperatura := { valor := 20, categoria := "moderada" }
         humedad := { valor := 90, categoria := "alta" }
         viento := { valor := 35, categoria := "fuerte" }
         riesgo_cultivo :=
           { nivel := "alto"
             factores := ["humedad alta", "viento fuerte"]
             valor := 4 } }]
    recomendaciones := []
    alertas := [alertaHongos, alertaViento]
    resumen :=
      { temperatura_promedio := 20, humedad_promedio := 90
        viento_promedio := 35, tendencia_temperatura := "estable"
        tendencia_humedad := "estable" } }

/-- The analysis `analizar_patron_semanal` produces on `diasC9`. -/
def aC9 : Analisis :=
  { patrones_diarios :=
      [{ dia := "Martes", fecha := "2024-01-02"
         temperatura := { valor := 18, categoria := "moderada" }
         humedad := { valor := 85, categoria := "alta" }
         viento := { valor := 40, categoria := "fuerte" }
         riesgo_cultivo :=
           { nivel := "alto"
             factores := ["humedad alta", "viento fuerte"]
             valor := 4 } },
       { dia := "Miércoles", fecha := "2024-01-03"
         temperatura := { valor := 19, categoria := "moderada" }
         humedad := { valor := 85, categoria := "alta" }
         viento := { valor := 40, categoria := "fuerte" }
         riesgo_cultivo :=
           { nivel := "alto"
             factores := ["humedad alta", "viento fuerte"]
             valor := 4 } }]
    recomendaciones := [recomendacionRiego]
    alertas := [alertaHongos, alertaViento]
    resumen :=
      { temperatura_promedio := 37 / 2, humedad_promedio := 85
        viento_promedio := 40, tendencia_temperatura := "aumentando"
        tendencia_humedad := "estable" } }

/-- The analysis `analizar_patron_semanal` produces on `diasC10`. -/
def aC10 : Analisis :=
  { patrones_diarios :=
      [{ dia := "Lunes", fecha := "2024-01-01"
         temperatura := { valor := 20, categoria := "moderada" }
         humedad := { valor := 50, categoria := "moderada" }
         viento := { valor := 5, categoria := "suave" }
         riesgo_cultivo := { nivel := "bajo", factores := [], valor := 0 } },
       { dia := "Miércoles", fecha := "2024-01-03"
         temperatura := { valor := 22, categoria := "moderada" }
         humedad := { valor := 55, categoria := "moderada" }
         viento := { valor := 7, categoria := "suave" }
         riesgo_cultivo := { nivel := "bajo", factores := [], valor := 0 } }]
    recomendaciones := [recomendacionRiego]
    alertas := []
    resumen :=
      { temperatura_promedio := 21, humedad_promedio := 105 / 2
        viento_promedio := 6, tendencia_temperatura := "aumentando"
        tendencia_humedad := "aumentando" } }

/-! ## Helper lemmas -/

/-- The retry loop performs between `attempts` and `attempts + fuel`
GET requests in total. -/
theorem make_request_loop_bounds (env : ℕ → Outcome) :
    ∀ fuel attempts lastError,
      attempts ≤ (make_request_loop env fuel attempts lastError).2 ∧
      (make_request_loop env fuel attempts lastError).2 ≤ attempts + fuel := by
  intro fuel
  induction fuel with
  | zero => intro a l; simp [make_request_loop]
  | succ n ih =>
    intro a l
    rcases henv : env a with _ | msg | ⟨st, b⟩
    · have := ih (a + 1) "Timeout al conectar con el servicio"
      simp only [make_request_loop, henv]
      omega
    · have := ih (a + 1) msg
      simp only [make_request_loop, henv]
      omega
    · by_cases hr : raisesForStatus st = true
      · have := ih (a + 1) ("HTTP error " ++ toString st)
        simp only [make_request_loop, henv, hr, if_true]
        omega
      · simp only [make_request_loop, henv]
        rw [if_neg hr]
        simp only []
        omega

/-- With at least one unit of fuel the loop performs at least one GET. -/
theorem make_request_loop_min (env : ℕ → Outcome) :
    ∀ fuel attempts lastError, 1 ≤ fuel →
      attempts + 1 ≤ (make_request_loop env fuel attempts lastError).2 := by
  intro fuel attempts lastError hf
  cases fuel with
  | zero => omega
  | succ n =>
    rcases henv : env attempts with _ | msg | ⟨st, b⟩
    · have := (make_request_loop_bounds env n (attempts + 1)
        "Timeout al conectar con el servicio").1
      simp only [make_request_loop, henv]
      omega
    · have := (make_request_loop_bounds env n (attempts + 1) msg).1
      simp only [make_request_loop, henv]
      omega
    · by_cases hr : raisesForStatus st = true
      · have := (make_request_loop_bounds env n (attempts + 1)
          ("HTTP error " ++ toString st)).1
        simp only [make_request_loop, henv, hr, if_true]
        omega
      · simp only [make_request_loop, henv]
        rw [if_neg hr]

/-- The loop surfaces an error only after consuming all its fuel. -/
theorem make_request_loop_error (env : ℕ → Outcome) :
    ∀ fuel attempts lastError,
      isErr (make_request_loop env fuel attempts lastError).1 = true →
      (make_request_loop env fuel attempts lastError).2 = attempts + fuel := by
  intro fuel
  induction fuel with
  | zero => intro a l _; simp [make_request_loop]
  | succ n ih =>
    intro a l herr
    rcases henv : env a with _ | msg | ⟨st, b⟩
    · simp only [make_request_loop, henv] at herr ⊢
      have := ih (a + 1) "Timeout al conectar con el servicio" herr
      omega
    · simp only [make_request_loop, henv] at herr ⊢
      have := ih (a + 1) msg herr
      omega
    · by_cases hr : raisesForStatus st = true
      · simp only [make_request_loop, henv, hr, if_true] at herr ⊢
        have := ih (a + 1) ("HTTP error " ++ toString st) herr
        omega
      · simp only [make_request_loop, henv] at herr
        rw [if_neg hr] at herr
        simp [isErr] at herr

/-! ## Claims -/

/-- C1, counterexample. For temperature 32, humidity 85, wind 10 the
crop-risk evaluation does return score 4 with factors high temperature
and high humidity ("temperatura alta", "humedad alta"), but its level is
"alto" (high), not "medio" (medium) as the claim asserts: by the level
rule quoted by the claim itself, a score of 4 falls in the `else` (high)
bucket. -/
theorem c1_counterexample :
    (evaluar_riesgo_cultivo 32 85 10).valor = 4 ∧
    (evaluar_riesgo_cultivo 32 85 10).factores =
      ["temperatura alta", "humedad alta"] ∧
    (evaluar_riesgo_cultivo 32 85 10).nivel ≠ "medio" := by
  decide

/-- C1, amended: for the daily inputs temperature 32, humidity 85, wind
10, the crop-risk evaluation returns score 4 with factors high
temperature and high humidity, and risk level high ("alto"), consistent
with the level rule: score ≤ 1 gives low, score ≤ 3 gives medium, and
any other score gives high. -/
theorem c1_amended :
    evaluar_riesgo_cultivo 32 85 10 =
      { nivel := "alto"
        factores := ["temperatura alta", "humedad alta"]
        valor := 4 } ∧
    ∀ t h v : ℚ, (evaluar_riesgo_cultivo t h v).nivel =
      if (evaluar_riesgo_cultivo t h v).valor ≤ 1 then "bajo"
      else if (evaluar_riesgo_cultivo t h v).valor ≤ 3 then "medio"
      else "alto" :=
  ⟨by decide, fun _ _ _ => rfl⟩

/-- C2, counterexample. The first GET returns HTTP 500 — a non-2xx
status — yet the client performs a second request and returns its body:
`raise_for_status` raises `HTTPError`, which the `except
RequestException` arm catches, so a non-2xx response is retried rather
than surfaced immediately. -/
theorem c2_counterexample :
    envC2 0 = Outcome.response 500 0 ∧
    ¬(200 ≤ 500 ∧ 500 < 300) ∧
    make_request envC2 = (Except.ok 7, 2) :=
  ⟨rfl, by omega, rfl⟩

/-- C2, amended: a response with a 4xx/5xx HTTP status raises
`HTTPError`, a `RequestException`, and is therefore retried exactly like
timeouts and transport failures; every failure kind shares the same
up-to-3-attempt loop, and an error is surfaced only after all 3 attempts
failed. -/
theorem c2_amended (env : ℕ → Outcome) (st b : ℕ)
    (h0 : env 0 = Outcome.response st b) (h4 : 400 ≤ st) (h6 : st < 600) :
    2 ≤ (make_request env).2 ∧ (make_request env).2 ≤ 3 ∧
    (isErr (make_request env).1 = true → (make_request env).2 = 3) := by
  have hr : raisesForStatus st = true := by
    simp [raisesForStatus]; omega
  have hstep : make_request env =
      make_request_loop env 2 1 ("HTTP error " ++ toString st) := by
    simp only [make_request, make_request_loop, h0, hr, if_true]
  rw [hstep]
  refine ⟨?_, ?_, ?_⟩
  · exact make_request_loop_min env 2 1 ("HTTP error " ++ toString st) (by omega)
  · have := (make_request_loop_bounds env 2 1 ("HTTP error " ++ toString st)).2
    omega
  · intro herr
    have := make_request_loop_error env 2 1 ("HTTP error " ++ toString st) herr
    omega

/-- C2, witness for the amended theorem at the all-404 environment. -/
theorem c2_amended_witness :
    envC2W 0 = Outcome.response 404 0 ∧ 400 ≤ 404 ∧ 404 < 600 ∧
    (2 ≤ (make_request envC2W).2 ∧ (make_request envC2W).2 ≤ 3 ∧
      (isErr (make_request envC2W).1 = true → (make_request envC2W).2 = 3)) :=
  ⟨rfl, by omega, by omega,
    c2_amended envC2W 404 0 rfl (by omega) (by omega)⟩

/-- C5: temperature categorization returns "fría" (cold) exactly below
15, "moderada" (moderate) exactly on [15, 25), and "caliente" (hot)
exactly from 25 on; in particular 25.0 is hot, 15.0 moderate and 14.9
cold. -/
theorem c5_temperature_categories :
    (∀ t : ℚ,
      (categorizar_temperatura t = "fría" ↔ t < 15) ∧
      (categorizar_temperatura t = "moderada" ↔ 15 ≤ t ∧ t < 25) ∧
      (categorizar_temperatura t = "caliente" ↔ 25 ≤ t)) ∧
    categorizar_temperatura 25 = "caliente" ∧
    categorizar_temperatura 15 = "moderada" ∧
    categorizar_temperatura (149 / 10) = "fría" := by
  refine ⟨fun t => ?_, by norm_num [categorizar_temperatura],
    by norm_num [categorizar_temperatura],
    by norm_num [categorizar_temperatura]⟩
  unfold categorizar_temperatura
  split_ifs with h1 h2
  · exact ⟨iff_of_true rfl h1,
      iff_of_false (by decide) (fun hc => absurd h1 (not_lt.2 hc.1)),
      iff_of_false (by decide) (fun hc => absurd h1 (not_lt.2 (by linarith)))⟩
  · exact ⟨iff_of_false (by decide) h1,
      iff_of_true rfl ⟨not_lt.1 h1, h2⟩,
      iff_of_false (by decide) (fun hc => absurd h2 (not_lt.2 hc))⟩
  · exact ⟨iff_of_false (by decide) h1,
      iff_of_false (by decide) (fun hc => absurd hc.2 h2),
      iff_of_true rfl (not_lt.1 h2)⟩

/-- C6: a series with fewer than 2 valid numeric points (in particular
the empty series and every length-1 series) has trend slope 0; the
embedded function is total, matching the source, whose every exception
path returns 0.0. -/
theorem c6_short_series_zero_slope (datos : List (Option ℚ))
    (h : (datos.filterMap id).length < 2) :
    calcular_tendencia datos = 0 := by
  by_cases h1 : datos.length < 2
  · simp [calcular_tendencia, h1]
  · simp [calcular_tendencia, h1, h]

/-- C6, witness at the length-1 series `[some 5]`. -/
theorem c6_witness :
    (([some (5 : ℚ)] : List (Option ℚ)).filterMap id).length < 2 ∧
    calcular_tendencia [some (5 : ℚ)] = 0 :=
  ⟨by simp, c6_short_series_zero_slope [some (5 : ℚ)] (by simp)⟩

/-- C7: the least-squares slope over the index-ordered series
[10,10,10,10,10] is 0, interpreted "estable" (stable), and over
[10,12,14,16,18] it is 2, interpreted "aumentando" (increasing); the
interpretation returns stable exactly when the magnitude of the slope is
below 0.1, increasing exactly for larger positive slopes, and
"disminuyendo" (decreasing) exactly for larger negative slopes. -/
theorem c7_trend_examples :
    calcular_tendencia ([10, 10, 10, 10, 10].map some) = 0 ∧
    interpretar_tendencia
      (calcular_tendencia ([10, 10, 10, 10, 10].map some)) = "estable" ∧
    calcular_tendencia ([10, 12, 14, 16, 18].map some) = 2 ∧
    interpretar_tendencia
      (calcular_tendencia ([10, 12, 14, 16, 18].map some)) = "aumentando" ∧
    (∀ s : ℚ, interpretar_tendencia s = "estable" ↔ |s| < 1 / 10) ∧
    (∀ s : ℚ, interpretar_tendencia s = "aumentando" ↔
      ¬|s| < 1 / 10 ∧ 0 < s) ∧
    (∀ s : ℚ, interpretar_tendencia s = "disminuyendo" ↔
      ¬|s| < 1 / 10 ∧ s < 0) := by
  have hflat : calcular_tendencia ([10, 10, 10, 10, 10].map some) = 0 := by
    norm_num [calcular_tendencia, slopeOLS, List.filterMap, List.range_succ]
  have hrise : calcular_tendencia ([10, 12, 14, 16, 18].map some) = 2 := by
    norm_num [calcular_tendencia, slopeOLS, List.filterMap, List.range_succ]
  refine ⟨hflat, by rw [hflat]; norm_num [interpretar_tendencia],
    hrise, by rw [hrise]; norm_num [interpretar_tendencia],
    fun s => ?_, fun s => ?_, fun s => ?_⟩ <;>
    unfold interpretar_tendencia <;> split_ifs with h1 h2
  · exact iff_of_true rfl h1
  · exact iff_of_false (by decide) h1
  · exact iff_of_false (by decide) h1
  · exact iff_of_false (by decide) (fun hc => hc.1 h1)
  · exact iff_of_true rfl ⟨h1, h2⟩
  · exact iff_of_false (by decide) (fun hc => absurd hc.2 h2)
  · exact iff_of_false (by decide) (fun hc => hc.1 h1)
  · exact iff_of_false (by decide) (fun hc => absurd h2 (asymm hc.2))
  · refine iff_of_true rfl ⟨h1, ?_⟩
    rcases (not_lt.1 h2).lt_or_eq with h | h
    · exact h
    · exact absurd (show |s| < 1 / 10 by rw [h]; norm_num) h1

/-- C3, counterexample. Normalization does not fail exactly when
`main.temp` or `main.humidity` is absent: the payload `payloadC3` has
both present, yet normalization fails, because `data["wind"]` is a
direct subscript and its `KeyError` is converted to the same error
path. -/
theorem c3_counterexample :
    payloadC3.main = some { temp := some 20, humidity := some 50 } ∧
    get_current_weather payloadC3 =
      Except.error "Error al procesar datos del clima: wind" :=
  ⟨rfl, rfl⟩

/-- C3, amended: current-weather normalization fails exactly when
`main`, `main.temp` or `main.humidity` is absent, or when the `wind`
object itself is absent; when it succeeds, `wind.speed` defaults to 0
(converted m/s to km/h by multiplying by 3.6 and rounding to 1
decimal), rain defaults to 0, and the condition description and code
default to "desconocido" (unknown) and 800 when the weather array is
absent or empty. -/
theorem c3_amended (data : CurrentPayload) :
    ((∃ e, get_current_weather data = .error e) ↔
      data.main = none ∨
      (∃ m, data.main = some m ∧ (m.temp = none ∨ m.humidity = none)) ∨
      data.wind = none) ∧
    (∀ m t h w, data.main = some m → m.temp = some t →
      m.humidity = some h → data.wind = some w →
      ∃ cw, get_current_weather data = .ok cw ∧
        cw.temperatura = round1 t ∧
        cw.humedad = h ∧
        cw.viento = round1 (w.speed.getD 0 * (36 / 10)) ∧
        (w.speed = none → cw.viento = 0) ∧
        (data.rain = none → cw.lluvia = 0) ∧
        (data.weather = [] → cw.condicion = "desconocido" ∧
          cw.condicion_id = 800)) := by
  obtain ⟨mo, wo, ro, weo⟩ := data
  constructor
  · cases mo with
    | none => simp [get_current_weather]
    | some m =>
      obtain ⟨t0, ho⟩ := m
      cases t0 with
      | none => simp [get_current_weather]
      | some t =>
        cases ho with
        | none => simp [get_current_weather]
        | some hh =>
          cases wo with
          | none => simp [get_current_weather]
          | some w => simp [get_current_weather]
  · intro m t h w hm ht hh hw
    simp only [CurrentPayload.main] at hm
    subst hm
    obtain ⟨t0, ho⟩ := m
    simp only [MainData.temp] at ht
    simp only [MainData.humidity] at hh
    subst ht
    subst hh
    simp only [CurrentPayload.wind] at hw
    subst hw
    refine ⟨_, rfl, rfl, rfl, rfl, ?_, ?_, ?_⟩
    · intro hsp
      norm_num [get_current_weather, hsp, round1]
    · intro hrn
      simp only [CurrentPayload.rain] at hrn
      subst hrn
      rfl
    · intro hwe
      simp only [CurrentPayload.weather] at hwe
      subst hwe
      exact ⟨rfl, rfl⟩

/-- C3, witness for the amended theorem: `main` complete and a `wind`
object without `speed`; normalization succeeds and the wind defaults to
0. -/
theorem c3_amended_witness :
    payloadC3W.main = some { temp := some 20, humidity := some 50 } ∧
    payloadC3W.wind = some { speed := none } ∧
    (∃ cw, get_current_weather payloadC3W = .ok cw ∧
      cw.temperatura = round1 20 ∧
      cw.humedad = 50 ∧
      cw.viento =
        round1 (({ speed := none } : WindData).speed.getD 0 * (36 / 10)) ∧
      (({ speed := none } : WindData).speed = none → cw.viento = 0) ∧
      (payloadC3W.rain = none → cw.lluvia = 0) ∧
      (payloadC3W.weather = [] → cw.condicion = "desconocido" ∧
        cw.condicion_id = 800)) :=
  ⟨rfl, rfl, (c3_amended payloadC3W).2 { temp := some 20, humidity := some 50 }
    20 50 { speed := none } rfl rfl rfl rfl⟩

/-- Splits a true Boolean conjunction. -/
theorem band_true {a b : Bool} (h : (a && b) = true) :
    a = true ∧ b = true := by
  simpa using h

/-- Computation rule of `List.find?` at a failing head. -/
theorem find?_cons_false {α : Type} (p : α → Bool) (a : α) (l : List α)
    (h : p a = false) : List.find? p (a :: l) = List.find? p l := by
  simp [List.find?, h]

/-- Computation rule of `List.find?` at a passing head. -/
theorem find?_cons_true {α : Type} (p : α → Bool) (a : α) (l : List α)
    (h : p a = true) : List.find? p (a :: l) = some a := by
  simp [List.find?, h]

/-- A successfully normalized sample keeps its own date. -/
theorem normalizeItem_fecha {s : Sample} {f : DailyForecast}
    (h : normalizeItem s = some f) : f.fecha = s.date := by
  unfold normalizeItem at h
  rcases s with ⟨dt, mo, wo, ro, we⟩
  rcases mo with - | ⟨t0, ho⟩
  · exact absurd h (by simp)
  rcases t0 with - | t
  · exact absurd h (by simp)
  rcases ho with - | hh
  · exact absurd h (by simp)
  rcases wo with - | w
  · exact absurd h (by simp)
  simp only [Option.some.injEq] at h
  rw [← h]

/-- The selection loop never emits more than `5 - n` further entries. -/
theorem forecastLoop_length (lista : List Sample) :
    ∀ seen n, n ≤ 4 → (forecastLoop lista seen n).length ≤ 5 - n := by
  induction lista with
  | nil => intro seen n _; simp [forecastLoop]
  | cons s rest ih =>
    intro seen n hn
    unfold forecastLoop
    by_cases hc : (midday s && !seen.contains s.date) = true
    · rw [if_pos hc]
      cases hni : normalizeItem s with
      | none =>
        simp only [hni]
        exact ih (s.date :: seen) n hn
      | some f =>
        simp only [hni]
        by_cases h5 : 5 ≤ n + 1
        · rw [if_pos h5]
          simp only [List.length_singleton]
          omega
        · rw [if_neg h5]
          have := ih (s.date :: seen) (n + 1) (by omega)
          simp only [List.length_cons]
          omega
    · rw [if_neg hc]
      exact ih seen n hn

/-- Entries produced by the selection loop have pairwise distinct dates,
none of which was in `seen` on entry. -/
theorem forecastLoop_dates (lista : List Sample) :
    ∀ seen n,
      ((forecastLoop lista seen n).map DailyForecast.fecha).Nodup ∧
      ∀ e ∈ forecastLoop lista seen n, e.fecha ∉ seen := by
  induction lista with
  | nil => intro seen n; simp [forecastLoop]
  | cons s rest ih =>
    intro seen n
    unfold forecastLoop
    by_cases hc : (midday s && !seen.contains s.date) = true
    · rw [if_pos hc]
      have hdate : s.date ∉ seen := by
        have h2 := (band_true hc).2
        simpa using h2
      cases hni : normalizeItem s with
      | none =>
        simp only [hni]
        obtain ⟨h1, h2⟩ := ih (s.date :: seen) n
        exact ⟨h1, fun e he hmem => h2 e he (List.mem_cons_of_mem _ hmem)⟩
      | some f =>
        simp only [hni]
        have hf : f.fecha = s.date := normalizeItem_fecha hni
        by_cases h5 : 5 ≤ n + 1
        · rw [if_pos h5]
          refine ⟨by simp, ?_⟩
          intro e he
          rw [List.mem_singleton] at he
          subst he
          rw [hf]
          exact hdate
        · rw [if_neg h5]
          obtain ⟨h1, h2⟩ := ih (s.date :: seen) (n + 1)
          constructor
          · rw [List.map_cons, List.nodup_cons]
            refine ⟨?_, h1⟩
            intro hmem
            obtain ⟨e, he, heq⟩ := List.mem_map.mp hmem
            exact h2 e he (by rw [heq, hf]; exact List.mem_cons_self _ _)
          · intro e he
            rcases List.mem_cons.mp he with rfl | hrest
            · rw [hf]; exact hdate
            · exact fun hmem => h2 e hrest (List.mem_cons_of_mem _ hmem)
    · rw [if_neg hc]
      exact ih seen n

/-- The emitted entries form a sublist of the midday-normalized feed:
they appear in encounter order and each comes from a midday sample. -/
theorem forecastLoop_sublist (lista : List Sample) :
    ∀ seen n, (forecastLoop lista seen n).Sublist (lista.filterMap middayNorm) := by
  induction lista with
  | nil => intro seen n; simp [forecastLoop]
  | cons s rest ih =>
    intro seen n
    unfold forecastLoop
    by_cases hc : (midday s && !seen.contains s.date) = true
    · rw [if_pos hc]
      have hm : midday s = true := (band_true hc).1
      cases hni : normalizeItem s with
      | none =>
        have hmn : middayNorm s = none := by simp [middayNorm, hm, hni]
        simp only [hni, List.filterMap_cons, hmn]
        exact ih (s.date :: seen) n
      | some f =>
        have hmn : middayNorm s = some f := by simp [middayNorm, hm, hni]
        simp only [hni, List.filterMap_cons, hmn]
        by_cases h5 : 5 ≤ n + 1
        · rw [if_pos h5]
          exact (List.nil_sublist _).cons₂ f
        · rw [if_neg h5]
          exact (ih (s.date :: seen) (n + 1)).cons₂ f
    · rw [if_neg hc]
      cases hmn : middayNorm s with
      | none =>
        rw [List.filterMap_cons, hmn]
        exact ih seen n
      | some f =>
        rw [List.filterMap_cons, hmn]
        exact (ih seen n).cons f

/-- Every emitted entry whose date was unseen on entry is the
normalization of the first sample in the feed that passes the midday
filter and carries that date. -/
theorem forecastLoop_find (lista : List Sample) :
    ∀ seen n e, e ∈ forecastLoop lista seen n → e.fecha ∉ seen →
      ∃ s, lista.find? (fun s => midday s && (s.date == e.fecha)) = some s ∧
        normalizeItem s = some e := by
  induction lista with
  | nil => intro seen n e he _; simp [forecastLoop] at he
  | cons s rest ih =>
    intro seen n e he hnot
    unfold forecastLoop at he
    by_cases hc : (midday s && !seen.contains s.date) = true
    · rw [if_pos hc] at he
      have hm : midday s = true := (band_true hc).1
      cases hni : normalizeItem s with
      | none =>
        simp only [hni] at he
        have hnot' : e.fecha ∉ s.date :: seen :=
          (forecastLoop_dates rest (s.date :: seen) n).2 e he
        have hne : (s.date == e.fecha) = false := by
          rw [beq_eq_false_iff_ne]
          intro hEq
          exact hnot' (hEq ▸ List.mem_cons_self _ _)
        rw [find?_cons_false _ _ _ (by simp [hm, hne])]
        exact ih (s.date :: seen) n e he hnot'
      | some f =>
        simp only [hni] at he
        have hf : f.fecha = s.date := normalizeItem_fecha hni
        by_cases h5 : 5 ≤ n + 1
        · rw [if_pos h5] at he
          rw [List.mem_singleton] at he
          subst he
          refine ⟨s, ?_, hni⟩
          rw [find?_cons_true _ _ _ (by simp [hm, hf])]
        · rw [if_neg h5] at he
          rcases List.mem_cons.mp he with rfl | hrest
          · refine ⟨s, ?_, hni⟩
            rw [find?_cons_true _ _ _ (by simp [hm, hf])]
          · have hnot' : e.fecha ∉ s.date :: seen :=
              (forecastLoop_dates rest (s.date :: seen) (n + 1)).2 e hrest
            have hne : (s.date == e.fecha) = false := by
              rw [beq_eq_false_iff_ne]
              intro hEq
              exact hnot' (hEq ▸ List.mem_cons_self _ _)
            rw [find?_cons_false _ _ _ (by simp [hm, hne])]
            exact ih (s.date :: seen) (n + 1) e hrest hnot'
    · rw [if_neg hc] at he
      have hpredf : (midday s && (s.date == e.fecha)) = false := by
        cases hm : midday s with
        | false => simp [hm]
        | true =>
          have hcontains : seen.contains s.date = true := by
            cases hs : seen.contains s.date with
            | true => rfl
            | false => exact absurd (by rw [hm, hs]; rfl) hc
          have hne : (s.date == e.fecha) = false := by
            rw [beq_eq_false_iff_ne]
            intro hEq
            apply hnot
            rw [← hEq]
            simpa using hcontains
          simp [hne]
      rw [find?_cons_false (fun s => midday s && (s.date == e.fecha)) s rest
        hpredf]
      exact ih seen n e he hnot

/-- C4: on success, `get_forecast` returns at most 5 entries, with
pairwise distinct calendar dates, forming a sublist of the
midday-normalized feed (hence in the order the underlying samples were
encountered, each drawn from a midday sample), and each entry is the
normalization of the first sample of its date whose local hour is in
11, 12 or 13. -/
theorem c4_forecast_invariants (lista : List Sample) (r : List DailyForecast)
    (h : get_forecast lista = .ok r) :
    r.length ≤ 5 ∧
    (r.map DailyForecast.fecha).Nodup ∧
    r.Sublist (lista.filterMap middayNorm) ∧
    ∀ e ∈ r, ∃ s,
      lista.find? (fun s => midday s && (s.date == e.fecha)) = some s ∧
      (s.hour = 11 ∨ s.hour = 12 ∨ s.hour = 13) ∧
      normalizeItem s = some e := by
  have hr : r = forecastLoop lista [] 0 := by
    unfold get_forecast at h
    split_ifs at h
    exact (Except.ok.inj h).symm
  subst hr
  refine ⟨forecastLoop_length lista [] 0 (by omega),
    (forecastLoop_dates lista [] 0).1,
    forecastLoop_sublist lista [] 0, ?_⟩
  intro e he
  obtain ⟨s, h1, h2⟩ := forecastLoop_find lista [] 0 e he (by simp)
  have hpred := List.find?_some h1
  have hm : midday s = true := (band_true hpred).1
  have hhour : s.hour = 11 ∨ s.hour = 12 ∨ s.hour = 13 := by
    have := hm
    simp only [midday, Bool.or_eq_true, beq_iff_eq] at this
    tauto
  exact ⟨s, h1, hhour, h2⟩

/-- C4, witness: the two-sample feed `listaC4` yields two entries that
satisfy every invariant. -/
theorem c4_witness :
    get_forecast listaC4 = Except.ok rC4 ∧
    (rC4.length ≤ 5 ∧
     (rC4.map DailyForecast.fecha).Nodup ∧
     rC4.Sublist (listaC4.filterMap middayNorm) ∧
     ∀ e ∈ rC4, ∃ s,
       listaC4.find? (fun s => midday s && (s.date == e.fecha)) = some s ∧
       (s.hour = 11 ∨ s.hour = 12 ∨ s.hour = 13) ∧
       normalizeItem s = some e) := by
  have hok : get_forecast listaC4 = Except.ok rC4 := by
    norm_num [get_forecast, forecastLoop, normalizeItem, listaC4, rC4,
      midday, Sample.hour, Sample.date, get_day_name, round1]
  exact ⟨hok, c4_forecast_invariants listaC4 rC4 hok⟩

/-- A successful weekly analysis is made of the four loop products, and
the processed-pattern list is nonempty. -/
theorem analizar_ok {lat lon : ℚ} {dias : List DiaPronostico} {a : Analisis}
    (h : analizar_patron_semanal lat lon dias = .ok a) :
    a.patrones_diarios = patronesDe dias ∧
    a.recomendaciones = (generar_recomendaciones (temperaturasDe dias)
      (humedadesDe dias) (vientosDe dias)).1 ∧
    a.alertas = (generar_recomendaciones (temperaturasDe dias)
      (humedadesDe dias) (vientosDe dias)).2 ∧
    a.resumen = generar_resumen (temperaturasDe dias) (humedadesDe dias)
      (vientosDe dias)
      (calcular_tendencia ((temperaturasDe dias).map some))
      (calcular_tendencia ((humedadesDe dias).map some)) ∧
    patronesDe dias ≠ [] := by
  unfold analizar_patron_semanal at h
  split_ifs at h with h1 h2 h3
  have heq := Except.ok.inj h
  subst heq
  refine ⟨rfl, rfl, rfl, rfl, ?_⟩
  simpa using h3

/-- The daily pattern built by `procesarDia` stores the parsed values in
its value-category fields. -/
theorem procesarDia_valores {d : DiaPronostico} {p : PatronDiario}
    {t h v : ℚ} (hpd : procesarDia d = some (p, t, h, v)) :
    p.temperatura.valor = t ∧ p.humedad.valor = h ∧ p.viento.valor = v := by
  rcases d with ⟨dia, fecha, t0, h0, v0⟩
  rcases t0 with - | tv
  · exact absurd hpd (by simp [procesarDia])
  rcases h0 with - | hv
  · exact absurd hpd (by simp [procesarDia])
  rcases v0 with - | vv
  · exact absurd hpd (by simp [procesarDia])
  simp only [procesarDia, Option.some.injEq, Prod.mk.injEq] at hpd
  obtain ⟨hp, ht, hh, hv2⟩ := hpd
  subst hp
  subst ht
  subst hh
  subst hv2
  exact ⟨rfl, rfl, rfl⟩

/-- Each processed day contributes exactly one element to each series:
the three series are the images of the daily-pattern list under the
respective value projections. -/
theorem procesarDias_maps (dias : List DiaPronostico) :
    temperaturasDe dias =
      (patronesDe dias).map (fun p => p.temperatura.valor) ∧
    humedadesDe dias = (patronesDe dias).map (fun p => p.humedad.valor) ∧
    vientosDe dias = (patronesDe dias).map (fun p => p.viento.valor) := by
  induction dias with
  | nil => exact ⟨rfl, rfl, rfl⟩
  | cons d rest ih =>
    obtain ⟨h1, h2, h3⟩ := ih
    simp only [temperaturasDe, humedadesDe, vientosDe, patronesDe]
      at h1 h2 h3 ⊢
    cases hpd : procesarDia d with
    | none => simpa [procesarDias, hpd] using ⟨h1, h2, h3⟩
    | some pthv =>
      obtain ⟨p, t, h, v⟩ := pthv
      obtain ⟨e1, e2, e3⟩ := procesarDia_valores hpd
      simp [procesarDias, hpd, h1, h2, h3, e1, e2, e3]

/-- C8: in every successful weekly analysis, the fungal-risk alert (at
level "precaución") is present exactly when some processed day has
humidity above 80, and the strong-wind alert (at level "advertencia")
exactly when some processed day has wind above 30 — thresholds
independent of the per-day risk scoring, whose wind threshold is 25. -/
theorem c8_alert_thresholds (lat lon : ℚ) (dias : List DiaPronostico)
    (a : Analisis) (h : analizar_patron_semanal lat lon dias = .ok a) :
    (alertaHongos ∈ a.alertas ↔ ∃ x ∈ humedadesDe dias, x > 80) ∧
    (alertaViento ∈ a.alertas ↔ ∃ x ∈ vientosDe dias, x > 30) ∧
    alertaHongos.nivel = "precaución" ∧
    alertaViento.nivel = "advertencia" := by
  obtain ⟨-, -, halert, -, -⟩ := analizar_ok h
  rw [halert]
  unfold generar_recomendaciones
  refine ⟨?_, ?_, rfl, rfl⟩ <;>
    cases hA : (humedadesDe dias).any (fun x => x > 80) <;>
    cases hB : (vientosDe dias).any (fun x => x > 30) <;>
      simp_all [List.any_eq_true, alertaHongos, alertaViento]

/-- C9: a successful weekly analysis holds at most one alert of each
type (fungal risk and strong wind), hence at most 2 alerts, and at most
one irrigation recommendation, regardless of how many days exceed the
thresholds. -/
theorem c9_alert_multiplicity (lat lon : ℚ) (dias : List DiaPronostico)
    (a : Analisis) (h : analizar_patron_semanal lat lon dias = .ok a) :
    a.alertas.countP (fun al => al.tipo == "hongos") ≤ 1 ∧
    a.alertas.countP (fun al => al.tipo == "viento") ≤ 1 ∧
    a.alertas.length ≤ 2 ∧
    a.recomendaciones.length ≤ 1 := by
  obtain ⟨-, hrec, halert, -, -⟩ := analizar_ok h
  rw [hrec, halert]
  unfold generar_recomendaciones
  split_ifs <;>
    simp [List.countP_cons, List.countP_nil, alertaHongos, alertaViento]

/-- C10: in every successful weekly analysis the three series are the
per-day values of the daily-pattern list (hence all four lists have
equal length — one element per processed day) and the summary averages
are the rounded means over exactly those series. -/
theorem c10_series_alignment (lat lon : ℚ) (dias : List DiaPronostico)
    (a : Analisis) (h : analizar_patron_semanal lat lon dias = .ok a) :
    a.patrones_diarios = patronesDe dias ∧
    temperaturasDe dias =
      (patronesDe dias).map (fun p => p.temperatura.valor) ∧
    humedadesDe dias = (patronesDe dias).map (fun p => p.humedad.valor) ∧
    vientosDe dias = (patronesDe dias).map (fun p => p.viento.valor) ∧
    (temperaturasDe dias).length = (patronesDe dias).length ∧
    (humedadesDe dias).length = (patronesDe dias).length ∧
    (vientosDe dias).length = (patronesDe dias).length ∧
    a.resumen.temperatura_promedio =
      round1 ((temperaturasDe dias).sum / (temperaturasDe dias).length) ∧
    a.resumen.humedad_promedio =
      round1 ((humedadesDe dias).sum / (humedadesDe dias).length) ∧
    a.resumen.viento_promedio =
      round1 ((vientosDe dias).sum / (vientosDe dias).length) := by
  obtain ⟨hpat, -, -, hres, hne⟩ := analizar_ok h
  obtain ⟨m1, m2, m3⟩ := procesarDias_maps dias
  have l1 : (temperaturasDe dias).length = (patronesDe dias).length := by
    rw [m1, List.length_map]
  have l2 : (humedadesDe dias).length = (patronesDe dias).length := by
    rw [m2, List.length_map]
  have l3 : (vientosDe dias).length = (patronesDe dias).length := by
    rw [m3, List.length_map]
  have hnil : ∀ l : List ℚ, l.length = (patronesDe dias).length →
      l.isEmpty = false := by
    intro l hl
    cases hl0 : l with
    | nil =>
      rw [hl0] at hl
      exact absurd (List.length_eq_zero.mp hl.symm) hne
    | cons x xs => rfl
  have hTf := hnil _ l1
  have hHf := hnil _ l2
  have hVf := hnil _ l3
  refine ⟨hpat, m1, m2, m3, l1, l2, l3, ?_, ?_, ?_⟩ <;>
    rw [hres] <;> simp [generar_resumen, hTf, hHf, hVf]

/-- C8, witness at `diasC8`: humidity 90 and wind 35 produce both
alerts. -/
theorem c8_witness :
    analizar_patron_semanal 0 0 diasC8 = Except.ok aC8 ∧
    ((alertaHongos ∈ aC8.alertas ↔ ∃ x ∈ humedadesDe diasC8, x > 80) ∧
     (alertaViento ∈ aC8.alertas ↔ ∃ x ∈ vientosDe diasC8, x > 30) ∧
     alertaHongos.nivel = "precaución" ∧
     alertaViento.nivel = "advertencia") := by
  have hok : analizar_patron_semanal 0 0 diasC8 = Except.ok aC8 := by
    norm_num [analizar_patron_semanal, patronesDe, temperaturasDe,
      humedadesDe, vientosDe, procesarDias, procesarDia,
      categorizar_temperatura, categorizar_humedad, categorizar_viento,
      evaluar_riesgo_cultivo, generar_recomendaciones, generar_resumen,
      calcular_tendencia, slopeOLS, interpretar_tendencia, round1,
      alertaHongos, alertaViento, recomendacionRiego, diasC8, aC8,
      List.range_succ]
  exact ⟨hok, c8_alert_thresholds 0 0 diasC8 aC8 hok⟩

/-- C9, witness at `diasC9`: two days above both thresholds still yield
one alert of each type and one recommendation. -/
theorem c9_witness :
    analizar_patron_semanal 10 20 diasC9 = Except.ok aC9 ∧
    (aC9.alertas.countP (fun al => al.tipo == "hongos") ≤ 1 ∧
     aC9.alertas.countP (fun al => al.tipo == "viento") ≤ 1 ∧
     aC9.alertas.length ≤ 2 ∧
     aC9.recomendaciones.length ≤ 1) := by
  have hok : analizar_patron_semanal 10 20 diasC9 = Except.ok aC9 := by
    norm_num [analizar_patron_semanal, patronesDe, temperaturasDe,
      humedadesDe, vientosDe, procesarDias, procesarDia,
      categorizar_temperatura, categorizar_humedad, categorizar_viento,
      evaluar_riesgo_cultivo, generar_recomendaciones, generar_resumen,
      calcular_tendencia, slopeOLS, interpretar_tendencia, round1,
      alertaHongos, alertaViento, recomendacionRiego, diasC9, aC9,
      List.filterMap, List.range_succ]
  exact ⟨hok, c9_alert_multiplicity 10 20 diasC9 aC9 hok⟩

/-- C10, witness at `diasC10`: a skipped middle day leaves two processed
days; all lists align and the averages run over exactly those days. -/
theorem c10_witness :
    analizar_patron_semanal (-10) 30 diasC10 = Except.ok aC10 ∧
    (aC10.patrones_diarios = patronesDe diasC10 ∧
     temperaturasDe diasC10 =
       (patronesDe diasC10).map (fun p => p.temperatura.valor) ∧
     humedadesDe diasC10 =
       (patronesDe diasC10).map (fun p => p.humedad.valor) ∧
     vientosDe diasC10 =
       (patronesDe diasC10).map (fun p => p.viento.valor) ∧
     (temperaturasDe diasC10).length = (patronesDe diasC10).length ∧
     (humedadesDe diasC10).length = (patronesDe diasC10).length ∧
     (vientosDe diasC10).length = (patronesDe diasC10).length ∧
     aC10.resumen.temperatura_promedio =
       round1 ((temperaturasDe diasC10).sum /
         (temperaturasDe diasC10).length) ∧
     aC10.resumen.humedad_promedio =
       round1 ((humedadesDe diasC10).sum / (humedadesDe diasC10).length) ∧
     aC10.resumen.viento_promedio =
       round1 ((vientosDe diasC10).sum / (vientosDe diasC10).length)) := by
  have hok : analizar_patron_semanal (-10) 30 diasC10 = Except.ok aC10 := by
    norm_num [analizar_patron_semanal, patronesDe, temperaturasDe,
      humedadesDe, vientosDe, procesarDias, procesarDia,
      categorizar_temperatura, categorizar_humedad, categorizar_viento,
      evaluar_riesgo_cultivo, generar_recomendaciones, generar_resumen,
      calcular_tendencia, slopeOLS, interpretar_tendencia, round1,
      alertaHongos, alertaViento, recomendacionRiego, diasC10, aC10,
      List.filterMap, List.range_succ]
  exact ⟨hok, c10_series_alignment (-10) 30 diasC10 aC10 hok⟩

end Clima
